import Mathlib

/-!
Verification of the kmform form-rendering widget.

JavaScript strings are modelled as `List Char`; JavaScript string methods
`includes` and `replace(pat, "")` are modelled below as `jsIncludes` and
`jsReplaceFirst` (JS `replace` with a string pattern removes only the first,
i.e. leftmost, occurrence).
-/

/-- Model of JS `String.prototype.includes(pat)`: true iff `pat` occurs as a
contiguous substring. The empty pattern occurs in every string. -/
def jsIncludes (pat : List Char) : List Char → Bool
  | [] => pat.isEmpty
  | c :: rest => pat.isPrefixOf (c :: rest) || jsIncludes pat rest

/-- Model of JS `String.prototype.replace(pat, "")`: removes the first
(leftmost) occurrence of `pat`; returns the string unchanged when `pat` does
not occur. -/
def jsReplaceFirst (pat : List Char) : List Char → List Char
  | [] => []
  | c :: rest =>
    if pat.isPrefixOf (c :: rest) then (c :: rest).drop pat.length
    else c :: jsReplaceFirst pat rest

/-- `FButton.onClickListener` from `src/src/components/KMChoicePromptView.tsx`
(lines 180-188), as the state transformation it performs on `selectedState`:

```
if (props.multipleChoiceMode) {
  if (props.selectedState().includes(props.id))
    props.setSelectedState(props.selectedState().replace(props.id, ""))
  else props.setSelectedState(props.selectedState() + props.id)
} else {
  props.setSelectedState(props.selectedState() == props.id ? "" : props.id)
}
```
-/
def onClickListener (multipleChoiceMode : Bool) (id : List Char)
    (selectedState : List Char) : List Char :=
  if multipleChoiceMode then
    if jsIncludes id selectedState then jsReplaceFirst id selectedState
    else selectedState ++ id
  else
    if selectedState = id then [] else id

/-- Folding a sequence of option clicks over the initial selection state
`createSignal("")` (KMChoicePromptView.tsx line 79). Each click carries the
single-character id of the clicked button. -/
def toggleSeq (multipleChoiceMode : Bool) (ids : List Char) : List Char :=
  ids.foldl (fun s a => onClickListener multipleChoiceMode [a] s) []

/-- `QuestionType` enum from `KMTypes` (embedded in
`src/src/components/KMChoicePromptView.tsx`). -/
inductive QuestionType where
  | multi
  | single
  | short
  | long
  | singleWithImage
  | multiWithImage
deriving DecidableEq

/-- `Option` JSON type from `KMTypes`: one selectable item of a choice
question. Named `KMOption` here because `Option` collides with the Lean core
type of the same name. -/
structure KMOption where
  id : String
  title : String
  subtitle : String
  image : Option String := none
deriving DecidableEq

/-- `Question` JSON type from `KMTypes`. -/
structure Question where
  id : String
  prompt : String
  description : Option String := none
  type : QuestionType
  options : List KMOption
  required : Bool
  default : Option String := none
  placeholder : Option String := none
  formId : String
deriving DecidableEq

/-- `TypeForm` JSON type from `KMTypes`: the body received from the fetch
endpoint. -/
structure TypeForm where
  id : String
  name : String
  createdAt : String
  stillAccepting : Bool
  questions : List Question
deriving DecidableEq

/-- `QuestionResponse` JSON type from `KMTypes`: one answer entry of the
response mapping. The optional `id` field is kept (it is preserved untouched
by `updateStore`'s object spread). -/
structure QuestionResponse where
  id : Option String := none
  questionId : String
  value : String
deriving DecidableEq

/-- `initialiseStore` from `src/unnamed/part_001` (lines 134-141, identical in
`src/unnamed/part_000` lines 19-26):

```
const initialiseStore = (questions: Question[]) => {
    return questions.map((q) => {
        return { questionId: q.id, value: "" }
    }) as QuestionResponse[]
}
```
-/
def initialiseStore (questions : List Question) : List QuestionResponse :=
  questions.map (fun q => { questionId := q.id, value := "" })

/-- `updateStore` from `src/unnamed/part_001` (lines 164-168, identical in
`src/unnamed/part_000` lines 57-61):

```
function updateStore(id: string, value: string) {
    setValues(values.map((v) => (
        v.questionId === id ? { ...v, value: value} : v
    )))
}
```
-/
def updateStore (id : String) (value : String)
    (values : List QuestionResponse) : List QuestionResponse :=
  values.map (fun v => if v.questionId == id then { v with value := value } else v)

/-- Tag for the `questionResponses` field of a constructed `FormResponse`
payload. JavaScript object assignment copies references, so
`questionResponses: values` in `submitForm` stores a live reference to the
solid-js store, not the list of entries itself; `storeRef` models that
reference, while `copied` models a payload holding its own value copy of the
entries (the alternative the spec asks for). -/
inductive QuestionResponsesField where
  | storeRef
  | copied (entries : List QuestionResponse)
deriving DecidableEq

/-- `FormResponse` payload object as constructed by `submitForm`. -/
structure FormResponsePayload where
  formId : String
  questionResponses : QuestionResponsesField
deriving DecidableEq

/-- Payload construction inside `submitForm` from `src/unnamed/part_001`
(lines 170-185; same construction in `src/unnamed/part_000` lines 67-78):

```
let responses: FormResponse = {
    formId: props.data.id,
    questionResponses: values
}
```

`values` is the live store proxy, so the field holds the store reference. -/
def submitFormPayload (formId : String) : FormResponsePayload :=
  { formId := formId, questionResponses := .storeRef }

/-- Modelled from the spec (§4.2 `snapshot()`): a payload whose
`questionResponses` is a value copy of the mapping taken at submit time.
This is the spec's prescription, written for comparison with
`submitFormPayload`; it does not occur in the source. -/
def submitFormPayloadSpecCopy (formId : String)
    (store : List QuestionResponse) : FormResponsePayload :=
  { formId := formId, questionResponses := .copied store }

/-- Dereferencing the `questionResponses` field of a payload at a later point
in time, when the store holds `store`: a `storeRef` payload reads the store's
current contents, a `copied` payload reads its own copy. -/
def readQuestionResponses (store : List QuestionResponse) :
    FormResponsePayload → List QuestionResponse
  | ⟨_, .storeRef⟩ => store
  | ⟨_, .copied entries⟩ => entries

/-- The boolean handed to `setError` by `onValueChange` in `KMShortPromptView`
(`src/src/components/KMChoicePromptView.tsx` part 2, lines 269-272):

```
function onValueChange() {
    setError(ref.value == "" && props.required)
    props.storeUpdater(props.id, ref.value)
}
```

`value` is `ref.value`, the input field's current text; the handler also
pushes `(props.id, ref.value)` through `storeUpdater`, i.e. `updateStore`. -/
def shortPromptSetError (value : String) (required : Bool) : Bool :=
  (value == "") && required

/-- The error-flag trace of a required/optional `KMShortPromptView` across a
sequence of keystrokes: the flag starts at `createSignal(false)` and after
each keystroke equals the value `onValueChange` hands to `setError` for the
field's text at that point. -/
def shortErrorTrace (required : Bool) (keystrokes : List String) : List Bool :=
  false :: keystrokes.map (fun v => shortPromptSetError v required)

/-- The boolean handed to `setError` by `onValueChange` in `FLongPromptView`
(`src/unnamed/part_002`, lines 69-72):

```
function onValueChange() {
    setError(ref.value == "")
    props.storeUpdater(props.id, ref.value)
}
```

Unlike the short-answer view, `props.required` is not consulted. -/
def longPromptSetError (value : String) : Bool :=
  value == ""

/-- Whether the long view's error message element is hidden
(`src/unnamed/part_002`, line 97):
`classList={{"hidden": (!error() || !props.required)}}`. -/
def longErrorHidden (error required : Bool) : Bool :=
  !error || !required

/-- Outcome of the single `fetch` performed by `formRespond`: either the
server responded with some status, or the fetch rejected (network failure)
with an error message. -/
inductive FormRespondOutcome where
  | response (status : Nat)
  | networkFailure (message : String)
deriving DecidableEq

/-- `formRespond` from `src/unnamed/part_003` (lines 25-44), as a function of
the outcome of its one `PUT` request:

```
try {
    ...
    let result = await fetch(fetchUrl, { method: "PUT", ... })
    console.log(result.status)
    return result.status == 204
} catch (e) {
    console.log(e)
    return false
}
```

The function issues exactly one request (its argument is that request's
outcome) and never retries. -/
def formRespond : FormRespondOutcome → Bool
  | .response status => status == 204
  | .networkFailure _ => false

/-- The console log produced by one `formRespond` call: the fetch URL is
logged first, then the response status, or the caught error on failure. -/
def formRespondLog (formId : String) : FormRespondOutcome → List String
  | .response status =>
    ["https://kam-backend.vercel.app/form/respond?formId=" ++ formId,
     toString status]
  | .networkFailure e =>
    ["https://kam-backend.vercel.app/form/respond?formId=" ++ formId, e]

/-- Outcome of the `GET` request performed by `fetchFormStructure`: network
failure (the `fetch` or `result.json()` promise rejects before a status is
seen), or a response with a status and a body. `body = none` models a body
that `result.json()` cannot parse (the parse rejection is caught by
`onMount`'s `try/catch` like any other throw). -/
inductive FetchOutcome where
  | networkFailure
  | response (status : Nat) (body : Option TypeForm)
deriving DecidableEq

/-- `fetchFormStructure` from `src/unnamed/part_001` (lines 34-46), as a
function of the request outcome:

```
let result = await fetch(props.restFetchUrl, { method: "GET", ... })
if (result.status == 200) return await result.json() as TypeForm
else throw "Error loading JSON"
```

`Except.error` models a thrown/rejected promise; the string carries the
thrown message. `result.json()` is only invoked on status 200, and the
`as TypeForm` cast performs no schema validation, so the only body failure is
a JSON parse rejection. -/
def fetchFormStructure : FetchOutcome → Except String TypeForm
  | .networkFailure => .error "TypeError: Failed to fetch"
  | .response status body =>
    if status == 200 then
      match body with
      | some form => .ok form
      | none => .error "SyntaxError: Unexpected token"
    else .error "Error loading JSON"

/-- The signals of `KMFormView` (`src/unnamed/part_001`, lines 26-32) that
drive screen routing, plus the fetched `result`. -/
structure KMFormViewState where
  loadingData : Bool
  loadingError : Bool
  closedForm : Bool
  result : Option TypeForm
deriving DecidableEq

/-- Initial signal values: `createSignal(true)`, `createSignal(false)`,
`createSignal(false)`; `result` not yet assigned. -/
def initialViewState : KMFormViewState :=
  { loadingData := true, loadingError := false, closedForm := false,
    result := none }

/-- The `onMount` handler of `KMFormView` (`src/unnamed/part_001`, lines
49-58), as a state transformation driven by the fetch outcome:

```
try {
    result = await fetchFormStructure()
    setClosedForm(!result.stillAccepting)
    setLoadingData(false)
} catch (e) {
    console.log("error" + e)
    setLoadError(true)
}
```
-/
def onMountHandler (o : FetchOutcome) (s : KMFormViewState) : KMFormViewState :=
  match fetchFormStructure o with
  | .ok form =>
    { s with result := some form, closedForm := !form.stillAccepting,
             loadingData := false }
  | .error _ => { s with loadingError := true }

/-- Condition of `<Show when={loadingError()}>` wrapping `ErrorScreen`
(`src/unnamed/part_001`, lines 65-67). -/
def showsErrorScreen (s : KMFormViewState) : Bool :=
  s.loadingError

/-- Condition of
`<Show when={!loadingData() && !loadingError() && !closedForm()}>` wrapping
the `FormView` (`src/unnamed/part_001`, lines 72-80). -/
def showsFormView (s : KMFormViewState) : Bool :=
  !s.loadingData && !s.loadingError && !s.closedForm

/-- Condition of
`<Show when={!loadingData() && !loadingError() && closedForm()}>` wrapping
`ClosedForm` (`src/unnamed/part_001`, lines 68-70). -/
def showsClosedForm (s : KMFormViewState) : Bool :=
  !s.loadingData && !s.loadingError && s.closedForm

/-- A concrete form definition whose `stillAccepting` flag is false. -/
def closedFormExample : TypeForm :=
  { id := "f1", name := "sample", createdAt := "2024-01-01",
    stillAccepting := false, questions := [] }

/-- Three concrete short-answer questions used to instantiate the
`initialize([q1, q2, q3])` scenario. -/
def q1ex : Question :=
  { id := "q1", prompt := "First", type := .short, options := [],
    required := true, formId := "f1" }

/-- Second sample question. -/
def q2ex : Question :=
  { id := "q2", prompt := "Second", type := .long, options := [],
    required := false, formId := "f1" }

/-- Third sample question. -/
def q3ex : Question :=
  { id := "q3", prompt := "Third", type := .multi,
    options := [{ id := "0", title := "a", subtitle := "s" },
                { id := "1", title := "b", subtitle := "s" }],
    required := false, formId := "f1" }

/-- For a one-character pattern, JS `includes` is list membership. -/
theorem jsIncludes_singleton (a : Char) (s : List Char) :
    jsIncludes [a] s = true ↔ a ∈ s := by
  induction s with
  | nil => simp [jsIncludes]
  | cons c rest ih =>
    simp [jsIncludes, List.isPrefixOf, ih, List.mem_cons]

/-- For a one-character pattern, JS `replace(pat, "")` is `List.erase`
(removal of the first occurrence). -/
theorem jsReplaceFirst_singleton (a : Char) (s : List Char) :
    jsReplaceFirst [a] s = s.erase a := by
  induction s with
  | nil => rfl
  | cons c rest ih =>
    by_cases h : a = c
    · subst h
      simp [jsReplaceFirst, List.isPrefixOf, List.erase_cons]
    · have hcb : (c == a) = false := by
        simp [Ne.symm h]
      simp [jsReplaceFirst, List.isPrefixOf, List.erase_cons, h, hcb, ih]

/-- Multi-select click on an already-selected id erases its (first)
occurrence. -/
theorem onClickListener_multi_mem (a : Char) (s : List Char) (h : a ∈ s) :
    onClickListener true [a] s = s.erase a := by
  have h1 : jsIncludes [a] s = true := (jsIncludes_singleton a s).mpr h
  simp [onClickListener, h1, jsReplaceFirst_singleton]

/-- Multi-select click on an unselected id appends it. -/
theorem onClickListener_multi_not_mem (a : Char) (s : List Char) (h : a ∉ s) :
    onClickListener true [a] s = s ++ [a] := by
  have h1 : jsIncludes [a] s = false := by
    rw [Bool.eq_false_iff]
    intro hc
    exact h ((jsIncludes_singleton a s).mp hc)
  simp [onClickListener, h1]

/-- Single-select click: deselect on exact match, else replace wholesale. -/
theorem onClickListener_single (a : Char) (s : List Char) :
    onClickListener false [a] s = if s = [a] then [] else [a] := by
  simp [onClickListener]

/-- A multi-select click preserves freedom from duplicates. -/
theorem nodup_onClickListener_multi (a : Char) (s : List Char)
    (h : s.Nodup) : (onClickListener true [a] s).Nodup := by
  by_cases hm : a ∈ s
  · rw [onClickListener_multi_mem a s hm]
    exact h.erase a
  · rw [onClickListener_multi_not_mem a s hm]
    simp [List.nodup_append, h, hm]

/-- Folding multi-select clicks from any duplicate-free state stays
duplicate-free. -/
theorem foldl_multi_nodup (l : List Char) :
    ∀ s : List Char, s.Nodup →
      (l.foldl (fun t a => onClickListener true [a] t) s).Nodup := by
  induction l with
  | nil => intro s hs; simpa using hs
  | cons a l ih =>
    intro s hs
    exact ih (onClickListener true [a] s) (nodup_onClickListener_multi a s hs)

/-- A single-select click always leaves a state of length at most one. -/
theorem length_onClickListener_single (a : Char) (s : List Char) :
    (onClickListener false [a] s).length ≤ 1 := by
  rw [onClickListener_single]
  by_cases h : s = [a] <;> simp [h]

/-- Folding single-select clicks from a state of length at most one keeps the
length at most one. -/
theorem foldl_single_length (l : List Char) :
    ∀ s : List Char, s.length ≤ 1 →
      (l.foldl (fun t a => onClickListener false [a] t) s).length ≤ 1 := by
  induction l with
  | nil => intro s hs; simpa using hs
  | cons a l ih =>
    intro s _
    exact ih (onClickListener false [a] s) (length_onClickListener_single a s)

/-- Folding multi-select clicks of pairwise-distinct, fresh ids appends them
in click order. -/
theorem foldl_multi_distinct (l : List Char) :
    ∀ s : List Char, l.Nodup → (∀ a ∈ l, a ∉ s) →
      l.foldl (fun t a => onClickListener true [a] t) s = s ++ l := by
  induction l with
  | nil => intro s _ _; simp
  | cons a l ih =>
    intro s hnd hfresh
    have ha : a ∉ s := hfresh a (List.mem_cons_self a l)
    have step : onClickListener true [a] s = s ++ [a] :=
      onClickListener_multi_not_mem a s ha
    have hnd' : l.Nodup := hnd.of_cons
    have hal : a ∉ l := by
      intro hcontra
      exact (List.nodup_cons.mp hnd).1 hcontra
    have hfresh' : ∀ b ∈ l, b ∉ s ++ [a] := by
      intro b hb
      simp only [List.mem_append, List.mem_singleton]
      rintro (hbs | rfl)
      · exact hfresh b (List.mem_cons_of_mem a hb) hbs
      · exact hal hb
    calc (a :: l).foldl (fun t b => onClickListener true [b] t) s
        = l.foldl (fun t b => onClickListener true [b] t) (s ++ [a]) := by
          simp [List.foldl_cons, step]
      _ = (s ++ [a]) ++ l := ih (s ++ [a]) hnd' hfresh'
      _ = s ++ (a :: l) := by simp

/-- C1: for every selection state `s` and single-digit option id `a`, the
toggle behaves as specified: single-select returns `""` iff `s` equals the
id and otherwise replaces the selection with the id; multi-select removes
the one occurrence of the id (order of the rest preserved) when present and
appends it otherwise; and the scenario `"" → "0" → "02" → "2"` holds for
the toggles `"0"`, `"2"`, `"0"`. -/
theorem toggle_spec_C1 (a : Char) (s : List Char) (_hd : a.isDigit = true) :
    (onClickListener false [a] s = if s = [a] then [] else [a])
  ∧ (a ∈ s → ∃ t u, s = t ++ a :: u ∧ a ∉ t ∧ onClickListener true [a] s = t ++ u)
  ∧ (a ∉ s → onClickListener true [a] s = s ++ [a])
  ∧ (onClickListener true ['0'] [] = ['0']
      ∧ onClickListener true ['2'] ['0'] = ['0', '2']
      ∧ onClickListener true ['0'] ['0', '2'] = ['2']) := by
  refine ⟨onClickListener_single a s, ?_, onClickListener_multi_not_mem a s, by decide⟩
  intro hmem
  obtain ⟨t, u, hnt, hs, herase⟩ := List.exists_erase_eq hmem
  exact ⟨t, u, hs, hnt, by rw [onClickListener_multi_mem a s hmem, herase]⟩

/-- Witness for `toggle_spec_C1` at `a = '1'`, `s = "0"`. -/
theorem toggle_spec_C1_witness :
    onClickListener false ['1'] ['0'] =
      (if (['0'] : List Char) = ['1'] then [] else ['1']) :=
  (toggle_spec_C1 '1' ['0'] (by decide)).1

/-- Counterexample to C2: the multi-select state `"02"` is reachable (toggle
`"0"` then `"2"` from the empty state) and `'0'` is a valid digit id, yet
toggling `'0'` twice from `"02"` produces `"20"`, not the original `"02"`:
the re-toggled id is appended at the end instead of returning to its old
position. -/
theorem toggle_twice_counterexample_C2 :
    toggleSeq true ['0', '2'] = ['0', '2']
  ∧ ('0' : Char).isDigit = true
  ∧ onClickListener true ['0'] (onClickListener true ['0'] ['0', '2']) = ['2', '0']
  ∧ onClickListener true ['0'] (onClickListener true ['0'] ['0', '2']) ≠ ['0', '2'] := by
  decide

/-- C2 (amended): for every duplicate-free multi-select state `s` (the
invariant of reachable states) and single-digit id `a`, toggling `a` twice
yields a permutation of `s` — the same set of selected ids; it equals `s`
exactly in the cases the code preserves order: when `a` is not selected the
state is restored verbatim, and when `a` is selected the double toggle moves
`a` to the end (`s.erase a ++ [a]`). -/
theorem toggle_twice_perm_C2 (a : Char) (s : List Char) (_hd : a.isDigit = true)
    (hnd : s.Nodup) :
    (onClickListener true [a] (onClickListener true [a] s)).Perm s
  ∧ (a ∉ s → onClickListener true [a] (onClickListener true [a] s) = s)
  ∧ (a ∈ s → onClickListener true [a] (onClickListener true [a] s) = s.erase a ++ [a]) := by
  by_cases hm : a ∈ s
  · have h1 : onClickListener true [a] s = s.erase a :=
      onClickListener_multi_mem a s hm
    have h2 : onClickListener true [a] (s.erase a) = s.erase a ++ [a] :=
      onClickListener_multi_not_mem a (s.erase a) hnd.not_mem_erase
    refine ⟨?_, fun hns => absurd hm hns, fun _ => by rw [h1, h2]⟩
    rw [h1, h2]
    exact (List.perm_append_singleton a (s.erase a)).trans
      (List.perm_cons_erase hm).symm
  · have h1 : onClickListener true [a] s = s ++ [a] :=
      onClickListener_multi_not_mem a s hm
    have hmem2 : a ∈ s ++ [a] := by simp
    have h2 : onClickListener true [a] (s ++ [a]) = s :=
      by
        rw [onClickListener_multi_mem a (s ++ [a]) hmem2,
          List.erase_append_right [a] hm]
        simp
    exact ⟨by rw [h1, h2], fun _ => by rw [h1, h2], fun hcontra => absurd hcontra hm⟩

/-- Witness for `toggle_twice_perm_C2` at `a = '0'`, `s = "02"`. -/
theorem toggle_twice_perm_C2_witness :
    (onClickListener true ['0'] (onClickListener true ['0'] ['0', '2'])).Perm ['0', '2'] :=
  (toggle_twice_perm_C2 '0' ['0', '2'] (by decide) (by decide)).1

/-- C6: starting from the empty selection state, for every click sequence of
single-digit ids, the multi-select state never repeats a character; every
single-select state has length 0 or 1; and toggling each id of a
duplicate-free id list exactly once in multi-select mode yields exactly that
list (in click order) — a permutation of the toggled ids with no
duplicates. -/
theorem selection_invariants_C6 (l : List Char)
    (_hd : ∀ a ∈ l, a.isDigit = true) :
    (toggleSeq true l).Nodup
  ∧ (toggleSeq false l).length ≤ 1
  ∧ (l.Nodup → toggleSeq true l = l ∧ (toggleSeq true l).Perm l) := by
  refine ⟨foldl_multi_nodup l [] List.nodup_nil,
    foldl_single_length l [] (by simp), ?_⟩
  intro hnd
  have h := foldl_multi_distinct l [] hnd (by simp)
  have heq : toggleSeq true l = l := by simpa [toggleSeq] using h
  exact ⟨heq, by rw [heq]⟩

/-- Witness for `selection_invariants_C6` at the distinct digit sequence
`"0", "1", "2"`. -/
theorem selection_invariants_C6_witness :
    (toggleSeq true ['0', '1', '2']).Nodup
  ∧ toggleSeq true ['0', '1', '2'] = ['0', '1', '2'] :=
  ⟨(selection_invariants_C6 ['0', '1', '2'] (by decide)).1,
   ((selection_invariants_C6 ['0', '1', '2'] (by decide)).2.2 (by decide)).1⟩

/-- Counterexample to C3: after the payload is constructed by `submitForm`, a
single `updateStore` call changes what the payload's `questionResponses`
dereferences to — the payload aliases the live store instead of holding a
value copy. -/
theorem submit_alias_counterexample_C3 :
    readQuestionResponses
        (updateStore "q1" "hello" [{ questionId := "q1", value := "" }])
        (submitFormPayload "f1")
      ≠ readQuestionResponses [{ questionId := "q1", value := "" }]
        (submitFormPayload "f1") := by
  decide

/-- C3 (amended): the Form Response constructed at submit time aliases the
Response Mapping — reading its `questionResponses` always yields the store's
current contents, so update calls made while the submission is in flight do
alter the payload handed to the network collaborator; only the spec's
prescribed value copy (`submitFormPayloadSpecCopy`) keeps the entries taken
at submit time regardless of later store contents. -/
theorem submit_alias_C3 (formId : String)
    (store later : List QuestionResponse) :
    readQuestionResponses later (submitFormPayload formId) = later
  ∧ readQuestionResponses later (submitFormPayloadSpecCopy formId store) = store :=
  ⟨rfl, rfl⟩

/-- C4: `updateStore` on a mapping with pairwise-distinct question ids
replaces exactly the value of the entry whose `questionId` matches, leaves
every other entry identical at its original position, never changes the
length, and leaves the mapping entirely unchanged when no entry matches. -/
theorem updateStore_frame_C4 (values : List QuestionResponse)
    (qid val : String)
    (_hnd : (values.map (fun v => v.questionId)).Nodup) :
    ((updateStore qid val values).length = values.length)
  ∧ (∀ (i : Nat) (v : QuestionResponse), values[i]? = some v →
       (v.questionId = qid →
          (updateStore qid val values)[i]? = some { v with value := val })
     ∧ (v.questionId ≠ qid → (updateStore qid val values)[i]? = some v))
  ∧ ((∀ v ∈ values, v.questionId ≠ qid) → updateStore qid val values = values) := by
  refine ⟨by simp [updateStore], ?_, ?_⟩
  · intro i v hv
    constructor
    · intro h
      simp [updateStore, List.getElem?_map, hv, h]
    · intro h
      simp [updateStore, List.getElem?_map, hv, h]
  · intro hall
    have : values.map
        (fun v => if v.questionId == qid then { v with value := val } else v)
        = values.map id :=
      List.map_congr_left (fun v hv => by simp [hall v hv])
    simpa [updateStore] using this

/-- Witness for `updateStore_frame_C4` on a concrete two-entry mapping. -/
theorem updateStore_frame_C4_witness :
    (updateStore "q1" "x"
      [{ questionId := "q1", value := "a" }, { questionId := "q2", value := "b" }]).length
    = ([{ questionId := "q1", value := "a" },
        { questionId := "q2", value := "b" }] : List QuestionResponse).length :=
  (updateStore_frame_C4
    [{ questionId := "q1", value := "a" }, { questionId := "q2", value := "b" }]
    "q1" "x" (by decide)).1

/-- C5: `initialiseStore` produces exactly one answer entry per question, in
question order, each with the empty value; instantiated at three concrete
questions it yields exactly the three empty-valued entries in order. -/
theorem initialiseStore_C5 (questions : List Question) :
    ((initialiseStore questions).length = questions.length)
  ∧ ((initialiseStore questions).map (fun e => e.questionId)
       = questions.map (fun q => q.id))
  ∧ (∀ e ∈ initialiseStore questions, e.value = "")
  ∧ (initialiseStore [q1ex, q2ex, q3ex] =
      [{ questionId := "q1", value := "" }, { questionId := "q2", value := "" },
       { questionId := "q3", value := "" }]) := by
  refine ⟨by simp [initialiseStore], ?_, ?_, by decide⟩
  · simp [initialiseStore, List.map_map]
  · intro e he
    simp only [initialiseStore, List.mem_map] at he
    obtain ⟨q, _, rfl⟩ := he
    rfl

/-- Witness for `initialiseStore_C5`: the first entry of the concrete
three-question instantiation has the empty value. -/
theorem initialiseStore_C5_witness :
    ({ questionId := "q1", value := "" } : QuestionResponse).value = "" :=
  (initialiseStore_C5 [q1ex, q2ex, q3ex]).2.2.1
    { questionId := "q1", value := "" } (by decide)

/-- C7: `formRespond` signals its outcome as a boolean — `true` exactly when
the single `PUT` request comes back with status 204 (this deployment's
success status); any other status yields `false`, and a network failure is
logged (the caught error appears in the console log) and yields `false`.
The function consumes the outcome of exactly one request: there is no
retry. -/
theorem formRespond_C7 (o : FormRespondOutcome) (fid : String) :
    (formRespond o = true ↔ o = .response 204)
  ∧ (∀ st : Nat, st ≠ 204 → formRespond (.response st) = false)
  ∧ (∀ e : String, formRespond (.networkFailure e) = false
        ∧ e ∈ formRespondLog fid (.networkFailure e)) := by
  refine ⟨?_, ?_, ?_⟩
  · cases o with
    | response st => simp [formRespond]
    | networkFailure e => simp [formRespond]
  · intro st hst
    simp [formRespond, hst]
  · intro e
    exact ⟨rfl, by simp [formRespondLog]⟩

/-- Witness for `formRespond_C7` at status 500. -/
theorem formRespond_C7_witness : formRespond (.response 500) = false :=
  (formRespond_C7 (.response 500) "f1").2.1 500 (by decide)

/-- Counterexample to C8: a status-200 response carrying a well-formed but
closed form (`stillAccepting = false`). The fetch succeeds — the parsed form
is returned — yet the form view is not shown: the closed-form screen is
shown instead. So "the parsed form is returned and the form view is shown"
does not hold exactly when the status is 200. -/
theorem fetch_success_counterexample_C8 :
    fetchFormStructure (.response 200 (some closedFormExample))
        = Except.ok closedFormExample
  ∧ showsFormView
      (onMountHandler (.response 200 (some closedFormExample)) initialViewState)
      = false
  ∧ showsClosedForm
      (onMountHandler (.response 200 (some closedFormExample)) initialViewState)
      = true := by
  refine ⟨rfl, by decide, by decide⟩

/-- C8 (amended): the fetch returns a parsed form exactly when the response
has status 200 and a body that parses; on success the loading flag clears and
the form view is shown precisely when the form is still accepting (otherwise
the closed-form screen). Any other status, a network failure, or a malformed
body makes `fetchFormStructure` throw, which sets the load-error flag and
shows the full-screen error state (no retry), never the form view. -/
theorem fetch_load_C8 (o : FetchOutcome) :
    ((∃ f, fetchFormStructure o = Except.ok f)
        ↔ (∃ f, o = .response 200 (some f)))
  ∧ (∀ e, fetchFormStructure o = Except.error e →
        (onMountHandler o initialViewState).loadingError = true
      ∧ showsErrorScreen (onMountHandler o initialViewState) = true
      ∧ showsFormView (onMountHandler o initialViewState) = false)
  ∧ (∀ f, fetchFormStructure o = Except.ok f →
        (onMountHandler o initialViewState).result = some f
      ∧ (onMountHandler o initialViewState).loadingData = false
      ∧ (onMountHandler o initialViewState).loadingError = false
      ∧ showsFormView (onMountHandler o initialViewState) = f.stillAccepting
      ∧ showsClosedForm (onMountHandler o initialViewState) = !f.stillAccepting) := by
  cases o with
  | networkFailure =>
    refine ⟨by simp [fetchFormStructure], ?_, ?_⟩
    · intro e _
      refine ⟨rfl, rfl, rfl⟩
    · intro f hf
      exact absurd hf (by simp [fetchFormStructure])
  | response st body =>
    by_cases hst : st = 200
    · subst hst
      cases body with
      | none =>
        refine ⟨by simp [fetchFormStructure], ?_, ?_⟩
        · intro e _
          refine ⟨rfl, rfl, rfl⟩
        · intro f hf
          exact absurd hf (by simp [fetchFormStructure])
      | some form =>
        refine ⟨by simp [fetchFormStructure], ?_, ?_⟩
        · intro e he
          exact absurd he (by simp [fetchFormStructure])
        · intro f hf
          have hform : f = form := by
            simpa [fetchFormStructure] using hf.symm
          subst hform
          refine ⟨rfl, rfl, rfl, ?_, ?_⟩
          · simp [onMountHandler, fetchFormStructure, showsFormView,
              initialViewState]
          · simp [onMountHandler, fetchFormStructure, showsClosedForm,
              initialViewState]
    · have hb : (st == 200) = false := by
        simp [hst]
      refine ⟨?_, ?_, ?_⟩
      · simp [fetchFormStructure, hb, hst]
      · intro e he
        have : onMountHandler (.response st body) initialViewState
            = { initialViewState with loadingError := true } := by
          simp [onMountHandler, fetchFormStructure, hb]
        rw [this]
        refine ⟨rfl, rfl, rfl⟩
      · intro f hf
        exact absurd hf (by simp [fetchFormStructure, hb])

/-- Witness for `fetch_load_C8`: a 404 response sets the load-error flag and
shows the error screen. -/
theorem fetch_load_C8_witness :
    showsErrorScreen
      (onMountHandler (.response 404 none) initialViewState) = true :=
  ((fetch_load_C8 (.response 404 none)).2.1 "Error loading JSON" rfl).2.1

/-- C9: in the short-answer view the flag handed to `setError` on every
keystroke is exactly "field is empty AND question is required"; it is false
(cleared) whenever the field is non-empty; and for a required question the
keystroke sequence "type `x`, then delete it" drives the flag through the
transitions `false → false → true`. -/
theorem short_error_C9 (required : Bool) (v : String) :
    (shortPromptSetError v required = true ↔ (v = "" ∧ required = true))
  ∧ (v ≠ "" → shortPromptSetError v required = false)
  ∧ shortErrorTrace true ["x", ""] = [false, false, true] := by
  refine ⟨?_, ?_, by decide⟩
  · simp [shortPromptSetError]
  · intro hv
    simp [shortPromptSetError, hv]

/-- Witness for `short_error_C9` at a required question with text "x". -/
theorem short_error_C9_witness : shortPromptSetError "x" true = false :=
  (short_error_C9 true "x").2.1 (by decide)

/-- C10: the long-answer (textarea) view sets its internal error flag to true
exactly when the textarea is empty, regardless of `required`; the error
message element is visible (not hidden) exactly when the flag is set AND the
question is required; and this differs from the short-answer view: on an
empty non-required field the long view's flag is true while the short view's
flag stays false. -/
theorem long_error_C10 (v : String) (required : Bool) :
    (longPromptSetError v = true ↔ v = "")
  ∧ (longErrorHidden (longPromptSetError v) required = false
      ↔ (v = "" ∧ required = true))
  ∧ (longPromptSetError "" = true ∧ shortPromptSetError "" false = false) := by
  refine ⟨?_, ?_, by decide⟩
  · simp [longPromptSetError]
  · simp [longErrorHidden, longPromptSetError]
